import Mathlib

/-!
Verification of the flashcard-extraction core and the in-memory
deck/flashcard repository of the `notestonotion` repository
(`notebook-vision/backend/ocr_utils.py`, `main.py`).

The Python code is shallowly embedded:
  * lines of text are `List Char`; `str.strip()` / `str.lower()` / the
    regex whitespace class `\s` are modelled on the ASCII whitespace
    characters actually exercised by the code and its tests;
  * each regular expression used by the line classifiers is embedded as a
    small token list (`RTok`) together with an anchored matcher `reDrop`
    that is equivalent to `re.search(pattern, line)` with a `^`-anchored
    pattern for these particular patterns (in all of them, a greedy
    `\s*` / `\d+` is followed by a token that cannot match a whitespace /
    digit character, so greedy matching without backtracking is exact);
  * the bounded Python `for ... range(...)` loops of the scanner are
    embedded as structural recursion on the exact iteration count of the
    range;
  * the in-memory dict stores become insertion-ordered association lists;
    `datetime.utcnow()` and `uuid.uuid4()` become explicit parameters.
-/

deriving instance DecidableEq for Except

namespace NotesToNotion

/-- ASCII whitespace, the characters that Python's `str.strip` and the
regex class `\s` treat as whitespace (restricted to ASCII). -/
def pyIsSpace (c : Char) : Bool :=
  c = ' ' || c = '\t' || c = '\n' || c = '\r' || c = '\x0b' || c = '\x0c'

/-- Python `str.lstrip()`. -/
def pyStripL (l : List Char) : List Char := l.dropWhile pyIsSpace

/-- Python `str.rstrip()`. -/
def pyStripR (l : List Char) : List Char := (l.reverse.dropWhile pyIsSpace).reverse

/-- Python `str.strip()`. -/
def pyStrip (l : List Char) : List Char := pyStripR (pyStripL l)

/-- Python `'\n'.split` applied to a text: split on every newline,
keeping empty pieces (`''.split('\n') == ['']`). -/
def splitNl : List Char → List (List Char)
  | [] => [[]]
  | c :: rest =>
    if c = '\n' then [] :: splitNl rest
    else
      match splitNl rest with
      | [] => [[c]]
      | l :: ls => (c :: l) :: ls

/-- Python `' '.join(parts)`. -/
def joinSp (parts : List (List Char)) : List Char :=
  (parts.intersperse [' ']).flatten

/-- Tokens of the regular expressions appearing in the line classifiers. -/
inductive RTok where
  /-- a literal character (`:`, `.`, `?`) -/
  | lit (c : Char) : RTok
  /-- a letter matched case-insensitively (the classifiers pass
  `re.IGNORECASE`); stored in lower case -/
  | litCI (c : Char) : RTok
  /-- `\s*` -/
  | starWs : RTok
  /-- `\d+` -/
  | plusDigit : RTok
  /-- a character class such as `[.:]` -/
  | oneOf (cs : List Char) : RTok
deriving DecidableEq

/-- Anchored matcher for the embedded patterns: `reDrop toks l` returns
`some rest` when the token list matches a prefix of `l`, leaving `rest`.
Greedy matching of `starWs` / `plusDigit` without backtracking is exact
for every pattern below, because the following token never matches a
whitespace / digit character. -/
def reDrop : List RTok → List Char → Option (List Char)
  | [], l => some l
  | .lit c :: ts, l =>
    match l with
    | [] => none
    | c' :: l' => if c' = c then reDrop ts l' else none
  | .litCI c :: ts, l =>
    match l with
    | [] => none
    | c' :: l' => if c'.toLower = c then reDrop ts l' else none
  | .starWs :: ts, l => reDrop ts (l.dropWhile pyIsSpace)
  | .plusDigit :: ts, l =>
    match l with
    | [] => none
    | c' :: l' => if c'.isDigit then reDrop ts (l'.dropWhile Char.isDigit) else none
  | .oneOf cs :: ts, l =>
    match l with
    | [] => none
    | c' :: l' => if cs.contains c' then reDrop ts l' else none

/-- Case-insensitive literal word, one `litCI` token per letter. -/
def wordCI (s : List Char) : List RTok := s.map .litCI

/-- `r'^Q\s*:'` -/
def patQColon : List RTok := [.litCI 'q', .starWs, .lit ':']

/-- `r'^Question\s*:'` -/
def patQuestionColon : List RTok :=
  wordCI ['q', 'u', 'e', 's', 't', 'i', 'o', 'n'] ++ [.starWs, .lit ':']

/-- `r'^Q\d+\s*[.:]'` -/
def patQNum : List RTok := [.litCI 'q', .plusDigit, .starWs, .oneOf ['.', ':']]

/-- `r'^\d+\s*\.\s*'` -/
def patEnum : List RTok := [.plusDigit, .starWs, .lit '.', .starWs]

/-- `r'^\?\s*'` -/
def patLeadQm : List RTok := [.lit '?', .starWs]

/-- The `question_patterns` list of `_is_question_line`. -/
def question_patterns : List (List RTok) :=
  [patQColon, patQuestionColon, patQNum, patEnum, patLeadQm]

/-- `line.rstrip().endswith('?')`. -/
def endsWithQm (l : List Char) : Bool :=
  (pyStripR l).getLast? = some '?'

/-- `OCRProcessor._is_question_line`: any of the question patterns
matches (via `re.search` with `^`-anchored patterns, `re.IGNORECASE`),
or — unconditional fallback — the line `rstrip`ped ends with `?`. -/
def is_question_line (line : List Char) : Bool :=
  question_patterns.any (fun p => (reDrop p line).isSome) || endsWithQm line

/-- `r'^A\s*:'` -/
def patAColon : List RTok := [.litCI 'a', .starWs, .lit ':']

/-- `r'^Answer\s*:'` -/
def patAnswerColon : List RTok :=
  wordCI ['a', 'n', 's', 'w', 'e', 'r'] ++ [.starWs, .lit ':']

/-- `r'^Ans\s*:'` -/
def patAnsColon : List RTok := wordCI ['a', 'n', 's'] ++ [.starWs, .lit ':']

/-- `r'^A\d+\s*[.:]'` -/
def patANum : List RTok := [.litCI 'a', .plusDigit, .starWs, .oneOf ['.', ':']]

/-- The `answer_patterns` list of `_is_answer_line`, in source order
(the same alternatives, in the same order, form the group of the
`re.sub` pattern of `_clean_answer_text`). -/
def answer_patterns : List (List RTok) :=
  [patAColon, patAnswerColon, patAnsColon, patANum]

/-- `OCRProcessor._is_answer_line`. -/
def is_answer_line (line : List Char) : Bool :=
  answer_patterns.any (fun p => (reDrop p line).isSome)

/-- First alternative of a pattern list that matches a prefix of `l`
yields the rest of `l`; Python's regex alternation tries alternatives
left to right, and here the group is the whole pattern, so the first
alternative that matches at all wins. -/
def dropFirstAlt (pats : List (List RTok)) (l : List Char) : Option (List Char) :=
  match pats with
  | [] => none
  | p :: ps =>
    match reDrop p l with
    | some rest => some rest
    | none => dropFirstAlt ps l

/-- `OCRProcessor._clean_answer_text`:
`re.sub(r'^(A\s*:|Answer\s*:|Ans\s*:|A\d+\s*[.:])', '', line, flags=re.IGNORECASE).strip()`.
The pattern is anchored at `^` (no `re.MULTILINE`), so at most the single
leading match is removed. -/
def clean_answer_text (line : List Char) : List Char :=
  match dropFirstAlt answer_patterns line with
  | some rest => pyStrip rest
  | none => pyStrip line

/-- The pattern string of `_clean_question_text`, exactly as in the
source: `r'^(Q\s*:|Question\s*:|Q\d+\s*[.:|\d+\s*\.\s*)'`. -/
def clean_question_regex : List Char :=
  "^(Q\\s*:|Question\\s*:|Q\\d+\\s*[.:|\\d+\\s*\\.\\s*)".data

/-- Scans a regex pattern for balanced character classes, the check
`re.compile` performs that is relevant to `clean_question_regex`: a `\`
escapes the next character, `[` opens a class (when not already inside
one), `]` closes it. Returns `false` — Python raises
`re.error: unterminated character set` — when the pattern ends inside an
open class. (The pattern above contains no `]` at all, so the special
rule for a literal `]` right after `[` does not arise.) -/
def setsTerminated : List Char → Bool → Bool
  | [], inside => !inside
  | c :: rest, inside =>
    if c = '\\' then
      match rest with
      | [] => !inside
      | _ :: rest' => setsTerminated rest' inside
    else if c = '[' && !inside then setsTerminated rest true
    else if c = ']' && inside then setsTerminated rest false
    else setsTerminated rest inside

/-- The message of the `re.error` raised when compiling
`clean_question_regex`. -/
def reUnterminatedMsg : String := "unterminated character set"

/-- `OCRProcessor._clean_question_text`:
`re.sub(r'^(Q\s*:|Question\s*:|Q\d+\s*[.:|\d+\s*\.\s*)', '', line, flags=re.IGNORECASE).strip()`.
`re.sub` first compiles its pattern; compilation fails for every call
because the character class of the pattern is unterminated, so the
function raises `re.error` on every input. The `ok` branch (what the
call would return if the pattern compiled) is unreachable. -/
def clean_question_text (line : List Char) : Except String (List Char) :=
  if setsTerminated clean_question_regex false then .ok (pyStrip line)
  else .error reUnterminatedMsg

/-- The inner loop of `_find_answer` (`for j in range(i + 1, min(i + 3,
len(lines)))` with `break`): structural recursion on the iteration count
of the range. -/
def collect_go (lines : List (List Char)) : Nat → Nat → List (List Char)
  | 0, _ => []
  | fuel + 1, j =>
    let nl := pyStrip (lines.getD j [])
    if !nl.isEmpty && !is_question_line nl && !is_answer_line nl then
      nl :: collect_go lines fuel (j + 1)
    else []

/-- The secondary lookahead of `_find_answer` after an answer-marker
line at index `i`: scan `range(i + 1, min(i + 3, len(lines)))`. -/
def secondary_lookahead (lines : List (List Char)) (i : Nat) : List (List Char) :=
  collect_go lines (min (i + 3) lines.length - (i + 1)) (i + 1)

/-- The outer loop of `_find_answer` (`for i in range(start_index,
min(start_index + 5, len(lines)))` with its three-way branch), again
recursion on the iteration count. -/
def find_answer_go (lines : List (List Char)) : Nat → Nat → List (List Char)
  | 0, _ => []
  | fuel + 1, i =>
    let line := pyStrip (lines.getD i [])
    if is_question_line line then []
    else if is_answer_line line then
      let cleaned := clean_answer_text line
      (if !cleaned.isEmpty then [cleaned] else []) ++ secondary_lookahead lines i
    else if !line.isEmpty && !is_question_line line then
      line :: find_answer_go lines fuel (i + 1)
    else find_answer_go lines fuel (i + 1)

/-- `OCRProcessor._find_answer`: scan at most 5 lines from
`start_index`, then `' '.join(answer_parts).strip()`. -/
def find_answer (lines : List (List Char)) (start : Nat) : List Char :=
  pyStrip (joinSp (find_answer_go lines (min (start + 5) lines.length - start) start))

/-- Loop of `_find_next_question_index` (`for i in range(start_index,
len(lines))`); note the source tests the *raw* line `lines[i]`, without
stripping. Runs out of iterations ⇒ `len(lines)`. -/
def fnqi_go (lines : List (List Char)) : Nat → Nat → Nat
  | 0, _ => lines.length
  | fuel + 1, i =>
    if is_question_line (lines.getD i []) then i else fnqi_go lines fuel (i + 1)

/-- `OCRProcessor._find_next_question_index`. -/
def find_next_question_index (lines : List (List Char)) (start : Nat) : Nat :=
  fnqi_go lines (lines.length - start) start

/-- The `while i < len(lines)` loop of `_extract_flashcards`. The index
`i` strictly increases on every iteration (`_find_next_question_index`
is called with `i + 1` and never returns less than `min(i + 1,
len(lines))`), so `len(lines) + 1` units of fuel always suffice; the
fuel-exhausted branch is unreachable. An exception raised by
`_clean_question_text` propagates out of the loop. -/
def extract_go (lines : List (List Char)) :
    Nat → Nat → List (List Char × List Char) →
    Except String (List (List Char × List Char))
  | 0, _, acc => .ok acc.reverse
  | fuel + 1, i, acc =>
    if i ≥ lines.length then .ok acc.reverse
    else
      let line := pyStrip (lines.getD i [])
      if is_question_line line then
        match clean_question_text line with
        | .error e => .error e
        | .ok q =>
          let answer := find_answer lines (i + 1)
          if !q.isEmpty && !answer.isEmpty then
            extract_go lines fuel (find_next_question_index lines (i + 1)) ((q, answer) :: acc)
          else extract_go lines fuel (i + 1) acc
      else extract_go lines fuel (i + 1) acc

/-- `OCRProcessor._extract_flashcards`: split the text on newlines and
run the scan loop. A raised exception is surfaced as `.error`. -/
def extract_flashcards (text : String) :
    Except String (List (List Char × List Char)) :=
  let lines := splitNl text.data
  extract_go lines (lines.length + 1) 0 []

/-- Python `str.strip()` at `String` level (used by the API layer). -/
def pyStripStr (s : String) : String := ⟨pyStrip s.data⟩

/-- A deck record (`class Deck`). `uuid.uuid4()` and
`datetime.utcnow().isoformat()` are modelled as explicit values fixed at
creation time. -/
structure Deck where
  id : String
  name : String
  created_at : String
  updated_at : String
deriving DecidableEq, Repr

/-- A flashcard record (`class Flashcard`); `assessment = {"current":
None, "history": []}` becomes the two fields `assessmentCurrent` /
`assessmentHistory`, and `to_dict` (which serialises every field
verbatim) is the identity on this record. -/
structure Flashcard where
  id : String
  question : String
  answer : String
  deck : String
  tags : List String
  created_at : String
  updated_at : String
  assessmentCurrent : Option String
  assessmentHistory : List (String × String)
deriving DecidableEq, Repr

/-- The module-level dicts `DECKS` and `FLASHCARDS`, as
insertion-ordered association lists with (invariantly) unique keys. -/
structure Store where
  decks : List (String × Deck)
  flashcards : List (String × Flashcard)
deriving DecidableEq, Repr

/-- Dict lookup (`d[k]` / `d.get(k)` / `k in d` via `isSome`). -/
def pyLookup (k : String) : List (String × α) → Option α
  | [] => none
  | kv :: t => if kv.1 = k then some kv.2 else pyLookup k t

/-- Dict deletion `d.pop(k)` / `del d[k]`: remove the entry with key `k`
(unique by the dict invariant), preserving the order of the rest. -/
def pyDelete (k : String) : List (String × α) → List (String × α)
  | [] => []
  | kv :: t => if kv.1 = k then pyDelete k t else kv :: pyDelete k t

/-- In-place mutation of the dict value at key `k` (Python mutates the
object held in the dict; the dict itself keeps its entry order). -/
def pyUpdateAt (k : String) (f : α → α) : List (String × α) → List (String × α)
  | [] => []
  | kv :: t =>
    if kv.1 = k then (kv.1, f kv.2) :: pyUpdateAt k f t
    else kv :: pyUpdateAt k f t

/-- `create_deck(name)`: `None` when the name is taken, otherwise insert
a fresh deck at the end of the dict and return it. -/
def create_deck (st : Store) (name : String) (freshId now : String) :
    Option Deck × Store :=
  if (pyLookup name st.decks).isSome then (none, st)
  else
    let d : Deck := { id := freshId, name := name, created_at := now, updated_at := now }
    (some d, { st with decks := st.decks ++ [(name, d)] })

/-- `api_create_deck` (`main.py`): strips the supplied name, rejects an
empty result with a validation error, then calls `create_deck` and turns
`None` into an already-exists error. -/
def api_create_deck (st : Store) (rawName : String) (freshId now : String) :
    Except String (Deck × Store) :=
  let name := pyStripStr rawName
  if name = "" then .error "Deck name required."
  else
    match create_deck st name freshId now with
    | (none, _) => .error "Deck already exists."
    | (some d, st') => .ok (d, st')

/-- `rename_deck(old_name, new_name)`: fail when `old_name` is absent or
`new_name` is present; otherwise `DECKS[new_name] = DECKS.pop(old_name)`
(moved to the end of the dict), update its `name` and `updated_at`, and
rewrite the `deck` field of every flashcard equal to `old_name`. -/
def rename_deck (st : Store) (oldName newName now : String) : Bool × Store :=
  match pyLookup oldName st.decks with
  | none => (false, st)
  | some d =>
    if (pyLookup newName st.decks).isSome then (false, st)
    else
      (true,
        { decks := pyDelete oldName st.decks ++
            [(newName, { d with name := newName, updated_at := now })],
          flashcards := st.flashcards.map (fun kv =>
            (kv.1, if kv.2.deck = oldName then { kv.2 with deck := newName } else kv.2)) })

/-- `delete_deck(name)`: fail for `"Default"` or an unknown name;
otherwise remove the deck and rewrite every flashcard referencing it to
`"Default"`. -/
def delete_deck (st : Store) (name : String) : Bool × Store :=
  if name = "Default" || (pyLookup name st.decks).isNone then (false, st)
  else
    (true,
      { decks := pyDelete name st.decks,
        flashcards := st.flashcards.map (fun kv =>
          (kv.1, if kv.2.deck = name then { kv.2 with deck := "Default" } else kv.2)) })

/-- `tag_flashcard(fc_id, tag)`: succeed only when the flashcard exists
and does not already carry the tag; on success append the tag and bump
`updated_at`. -/
def tag_flashcard (st : Store) (fcId tg now : String) : Bool × Store :=
  match pyLookup fcId st.flashcards with
  | none => (false, st)
  | some fc =>
    if fc.tags.contains tg then (false, st)
    else
      let upd := fun f : Flashcard => { f with tags := f.tags ++ [tg], updated_at := now }
      (true, { st with flashcards := pyUpdateAt fcId upd st.flashcards })

/-- Case-insensitive lowering (`str.lower()`, ASCII). -/
def lowerL (l : List Char) : List Char := l.map Char.toLower

/-- `startsWithL l p`: `p` is a prefix of `l`. -/
def startsWithL : List Char → List Char → Bool
  | _, [] => true
  | [], _ :: _ => false
  | c :: cs, p :: ps => c = p && startsWithL cs ps

/-- Python's substring test `needle in hay`. -/
def containsSub : List Char → List Char → Bool
  | [], needle => needle.isEmpty
  | c :: t, needle => startsWithL (c :: t) needle || containsSub t needle

/-- `query.lower() in text.lower()`. -/
def containsCI (text needle : String) : Bool :=
  containsSub (lowerL text.data) (lowerL needle.data)

/-- Python truthiness of an optional-string filter argument: `None` and
`''` are falsy. -/
def optTruthy : Option String → Bool
  | none => false
  | some s => !(s = "")

/-- `search_flashcards(query, deck, tag, assessment)`: start from all
flashcard values (dict order) and apply each truthy filter in turn;
`to_dict` is the identity on the `Flashcard` record. -/
def search_flashcards (st : Store) (query deck tag assessment : Option String) :
    List Flashcard :=
  let r0 := st.flashcards.map (fun kv => kv.2)
  let r1 := if optTruthy query then
      r0.filter (fun fc => containsCI fc.question (query.getD "") ||
        containsCI fc.answer (query.getD ""))
    else r0
  let r2 := if optTruthy deck then r1.filter (fun fc => fc.deck = deck.getD "") else r1
  let r3 := if optTruthy tag then r2.filter (fun fc => fc.tags.contains (tag.getD "")) else r2
  if optTruthy assessment then
    r3.filter (fun fc => fc.assessmentCurrent = some (assessment.getD ""))
  else r3

/-! ### Definitions written from the specification's words
(for comparison against the code embeddings above). -/

/-- Drop a case-insensitive literal word (given in lower case). -/
def dropWordCI : List Char → List Char → Option (List Char)
  | [], l => some l
  | _ :: _, [] => none
  | p :: ps, c :: cs => if c.toLower = p then dropWordCI ps cs else none

/-- Spec's words (claim C2): the line matches "`Q:` or `Q.` (optionally
with leading/trailing whitespace, case-insensitive)". -/
def qColonOrDotClaim (l : List Char) : Bool :=
  match pyStripL l with
  | [] => false
  | c :: rest =>
    c.toLower = 'q' &&
      match (rest.dropWhile pyIsSpace).head? with
      | some p => p = ':' || p = '.'
      | none => false

/-- Spec's words: `Question:` (case-insensitive, optional whitespace
before the colon). -/
def questionColonDirect (l : List Char) : Bool :=
  match dropWordCI ['q', 'u', 'e', 's', 't', 'i', 'o', 'n'] l with
  | some rest => (rest.dropWhile pyIsSpace).head? = some ':'
  | none => false

/-- Spec's words: `Q<digits>:` or `Q<digits>.` (case-insensitive). -/
def qNumDirect (l : List Char) : Bool :=
  match l with
  | [] => false
  | c :: rest =>
    c.toLower = 'q' &&
      match rest with
      | [] => false
      | d :: ds =>
        d.isDigit &&
          match ((ds.dropWhile Char.isDigit).dropWhile pyIsSpace).head? with
          | some p => p = '.' || p = ':'
          | none => false

/-- Spec's words: a leading enumerated-list marker `<digits>.`. -/
def enumDirect (l : List Char) : Bool :=
  match l with
  | [] => false
  | d :: ds =>
    d.isDigit && ((ds.dropWhile Char.isDigit).dropWhile pyIsSpace).head? = some '.'

/-- Spec's words: a leading `?`. -/
def leadQmDirect (l : List Char) : Bool :=
  match l with
  | [] => false
  | c :: _ => c = '?'

/-- Claim C2, as stated: the disjunction of the claimed question-marker
shapes, including bare `Q.` and a leading-whitespace allowance. -/
def isQuestionLineClaim (l : List Char) : Bool :=
  qColonOrDotClaim l || questionColonDirect l || qNumDirect l || enumDirect l ||
    leadQmDirect l || endsWithQm l

/-- Amended C2: the marker must sit at the very start of the line (no
leading whitespace) and bare `Q.` (without digits) is not a marker; `Q`
+ optional whitespace + `:` is. -/
def qColonDirect (l : List Char) : Bool :=
  match l with
  | [] => false
  | c :: rest => c.toLower = 'q' && (rest.dropWhile pyIsSpace).head? = some ':'

/-- Amended C2, full disjunction. -/
def isQuestionLineAmended (l : List Char) : Bool :=
  qColonDirect l || questionColonDirect l || qNumDirect l || enumDirect l ||
    leadQmDirect l || endsWithQm l

/-- Claim C3, as stated: `A:`/`A.`, `Answer:`, `Ans:`, or
`A<digits>:`/`A<digits>.` (case-insensitive), including bare `A.`. -/
def aColonOrDotClaim (l : List Char) : Bool :=
  match l with
  | [] => false
  | c :: rest =>
    c.toLower = 'a' &&
      match (rest.dropWhile pyIsSpace).head? with
      | some p => p = ':' || p = '.'
      | none => false

/-- Spec's words: `Answer:` (case-insensitive). -/
def answerColonDirect (l : List Char) : Bool :=
  match dropWordCI ['a', 'n', 's', 'w', 'e', 'r'] l with
  | some rest => (rest.dropWhile pyIsSpace).head? = some ':'
  | none => false

/-- Spec's words: `Ans:` (case-insensitive). -/
def ansColonDirect (l : List Char) : Bool :=
  match dropWordCI ['a', 'n', 's'] l with
  | some rest => (rest.dropWhile pyIsSpace).head? = some ':'
  | none => false

/-- Spec's words: `A<digits>:` or `A<digits>.` (case-insensitive). -/
def aNumDirect (l : List Char) : Bool :=
  match l with
  | [] => false
  | c :: rest =>
    c.toLower = 'a' &&
      match rest with
      | [] => false
      | d :: ds =>
        d.isDigit &&
          match ((ds.dropWhile Char.isDigit).dropWhile pyIsSpace).head? with
          | some p => p = '.' || p = ':'
          | none => false

/-- Claim C3, as stated. -/
def isAnswerLineClaim (l : List Char) : Bool :=
  aColonOrDotClaim l || answerColonDirect l || ansColonDirect l || aNumDirect l

/-- Amended C3: `A` + optional whitespace + `:`; bare `A.` (without
digits) is not an answer marker. -/
def aColonDirect (l : List Char) : Bool :=
  match l with
  | [] => false
  | c :: rest => c.toLower = 'a' && (rest.dropWhile pyIsSpace).head? = some ':'

/-- Amended C3, full disjunction. -/
def isAnswerLineAmended (l : List Char) : Bool :=
  aColonDirect l || answerColonDirect l || ansColonDirect l || aNumDirect l

/-- The up-to-2-line window scanned by the secondary lookahead after an
answer-marker line at index `i` (claim C4), stripped like the code
strips each scanned line. -/
def lookaheadWindow (lines : List (List Char)) (i : Nat) : List (List Char) :=
  ((lines.drop (i + 1)).take 2).map pyStrip

/-- Claim C4, as stated: a scanned line is appended as long as it is
neither a question line nor an answer line (a blank line does not
terminate the lookahead). -/
def lookaheadClaimPred (nl : List Char) : Bool :=
  !is_question_line nl && !is_answer_line nl

/-- Amended C4: a scanned line is appended as long as it is non-empty
and neither a question line nor an answer line (a blank line terminates
the lookahead as well). -/
def lookaheadAmendedPred (nl : List Char) : Bool :=
  !nl.isEmpty && !is_question_line nl && !is_answer_line nl

/-- Claim C10's conjunctive-filter semantics for one optional filter:
omitted (`None`) or empty filters impose no constraint. -/
def filterOk (o : Option String) (p : String → Bool) : Bool :=
  match o with
  | none => true
  | some s => if s = "" then true else p s

/-- Claim C10, as stated: the conjunction (AND) of the four optional
predicates — case-insensitive substring of question or answer, exact
deck-name equality, tag-set membership, exact equality against the
current assessment. -/
def matchesClaim (query deck tag assessment : Option String) (fc : Flashcard) : Bool :=
  filterOk query (fun s => containsCI fc.question s || containsCI fc.answer s) &&
  filterOk deck (fun s => fc.deck = s) &&
  filterOk tag (fun s => fc.tags.contains s) &&
  filterOk assessment (fun s => fc.assessmentCurrent = some s)

/-! ### Concrete fixtures for witnesses and counterexamples -/

/-- The always-present `"Default"` deck. -/
def deckDefault : Deck :=
  { id := "d-0", name := "Default", created_at := "t0", updated_at := "t0" }

/-- A user deck. -/
def deckBio : Deck :=
  { id := "d-1", name := "Biology", created_at := "t0", updated_at := "t0" }

/-- A flashcard in deck `"Biology"`, untagged. -/
def fcBio : Flashcard :=
  { id := "f1", question := "What is a cell?", answer := "The unit of life",
    deck := "Biology", tags := [], created_at := "t0", updated_at := "t0",
    assessmentCurrent := none, assessmentHistory := [] }

/-- A flashcard in deck `"Default"`, already tagged with `"x"`. -/
def fcDef : Flashcard :=
  { id := "f2", question := "2+2?", answer := "4",
    deck := "Default", tags := ["x"], created_at := "t0", updated_at := "t0",
    assessmentCurrent := some "good", assessmentHistory := [("t0", "good")] }

/-- A small concrete store. -/
def stExample : Store :=
  { decks := [("Default", deckDefault), ("Biology", deckBio)],
    flashcards := [("f1", fcBio), ("f2", fcDef)] }

/-! ## Sanity checks of the embedding on concrete inputs
(mirroring the repository's own test inputs). -/

example : is_question_line "Q: x".data = true := by decide
example : is_question_line "q :x".data = true := by decide
example : is_question_line "Question : y".data = true := by decide
example : is_question_line "Q5. y".data = true := by decide
example : is_question_line "12 . z".data = true := by decide
example : is_question_line "?abc".data = true := by decide
example : is_question_line "ends here?  ".data = true := by decide
example : is_question_line "Q. What is X".data = false := by decide
example : is_question_line " Q: What is X".data = false := by decide
example : is_question_line "A: ans".data = false := by decide
example : is_question_line "This is not a question".data = false := by decide
example : is_answer_line "A: 42".data = true := by decide
example : is_answer_line "a :42".data = true := by decide
example : is_answer_line "Ans: 4".data = true := by decide
example : is_answer_line "ANSWER:y".data = true := by decide
example : is_answer_line "A3. x".data = true := by decide
example : is_answer_line "A. 42".data = false := by decide
example : is_answer_line " A: x".data = false := by decide
example : clean_answer_text "A: 42 ".data = "42".data := by decide
example : clean_answer_text "Ans: 4".data = "4".data := by decide
example : extract_flashcards "no markers here\nand none here" = .ok [] := by decide
example : find_answer ["A: a".data, "".data, "x".data] 0 = "a".data := by decide
example : find_answer ["A: a".data, "b".data, "x".data, "y".data] 0
    = "a b x".data := by decide
example : find_answer ["prose".data, "A: a".data] 0 = "prose a".data := by decide
example : find_answer ["Q: q2".data] 0 = "".data := by decide

/-! ## Helper lemmas -/

/-- The character class opened in `clean_question_regex`
(`[.:|\d+\s*\.\s*)`) is never closed: the pattern does not compile. -/
theorem clean_question_regex_malformed :
    setsTerminated clean_question_regex false = false := by decide

theorem pyLookup_append (k : String) (l m : List (String × α)) :
    pyLookup k (l ++ m) = (pyLookup k l).or (pyLookup k m) := by
  induction l with
  | nil => simp [pyLookup]
  | cons kv t ih =>
    by_cases h : kv.1 = k <;> simp [pyLookup, h, ih]

theorem pyLookup_delete_self (k : String) (l : List (String × α)) :
    pyLookup k (pyDelete k l) = none := by
  induction l with
  | nil => rfl
  | cons kv t ih =>
    by_cases h : kv.1 = k <;> simp [pyDelete, pyLookup, h, ih]

theorem pyLookup_delete_ne (q k : String) (h : q ≠ k) (l : List (String × α)) :
    pyLookup q (pyDelete k l) = pyLookup q l := by
  induction l with
  | nil => rfl
  | cons kv t ih =>
    by_cases hk : kv.1 = k
    · have hq : ¬ kv.1 = q := by rw [hk]; exact fun e => h e.symm
      have h2 : ¬ k = q := fun e => h e.symm
      simp [pyDelete, pyLookup, hk, hq, h2, ih]
    · simp [pyDelete, pyLookup, hk, ih]

theorem pyLookup_mapVal (k : String) (f : α → β) (l : List (String × α)) :
    pyLookup k (l.map (fun kv => (kv.1, f kv.2))) = (pyLookup k l).map f := by
  induction l with
  | nil => rfl
  | cons kv t ih =>
    by_cases h : kv.1 = k <;> simp [pyLookup, h, ih]

theorem pyLookup_updateAt_self (k : String) (f : α → α) (l : List (String × α)) :
    pyLookup k (pyUpdateAt k f l) = (pyLookup k l).map f := by
  induction l with
  | nil => rfl
  | cons kv t ih =>
    by_cases h : kv.1 = k <;> simp [pyUpdateAt, pyLookup, h, ih]

theorem pyLookup_mem {k : String} {v : α} {l : List (String × α)}
    (h : pyLookup k l = some v) : (k, v) ∈ l := by
  induction l with
  | nil => simp [pyLookup] at h
  | cons kv t ih =>
    by_cases hk : kv.1 = k
    · simp [pyLookup, hk] at h
      have : kv = (k, v) := Prod.ext hk h
      rw [← this]
      exact List.mem_cons_self _ _
    · simp [pyLookup, hk] at h
      exact List.mem_cons_of_mem _ (ih h)

theorem reDrop_wordCI (w : List Char) (ts : List RTok) (l : List Char) :
    reDrop (wordCI w ++ ts) l =
      match dropWordCI w l with
      | some rest => reDrop ts rest
      | none => none := by
  induction w generalizing l with
  | nil => simp [wordCI, dropWordCI]
  | cons p ps ih =>
    cases l with
    | nil => simp [wordCI, dropWordCI, reDrop]
    | cons c cs =>
      simp only [wordCI, List.map_cons, List.cons_append, reDrop, dropWordCI]
      by_cases h : c.toLower = p <;> simp only [wordCI] at ih <;> simp [h, ih]

theorem reDrop_patQColon (l : List Char) :
    (reDrop patQColon l).isSome = qColonDirect l := by
  cases l with
  | nil => rfl
  | cons c rest =>
    simp only [patQColon, reDrop, qColonDirect]
    by_cases h : c.toLower = 'q'
    · cases hd : rest.dropWhile pyIsSpace with
      | nil => simp [reDrop, hd, h]
      | cons c2 r2 => by_cases h2 : c2 = ':' <;> simp [reDrop, hd, h, h2]
    · simp [reDrop, h]

theorem reDrop_patQuestionColon (l : List Char) :
    (reDrop patQuestionColon l).isSome = questionColonDirect l := by
  simp only [patQuestionColon, questionColonDirect, reDrop_wordCI]
  cases hd : dropWordCI ['q', 'u', 'e', 's', 't', 'i', 'o', 'n'] l with
  | none => simp
  | some rest =>
    cases hd2 : rest.dropWhile pyIsSpace with
    | nil => simp [reDrop, hd2]
    | cons c2 r2 => by_cases h2 : c2 = ':' <;> simp [reDrop, hd2, h2]

theorem reDrop_patQNum (l : List Char) :
    (reDrop patQNum l).isSome = qNumDirect l := by
  cases l with
  | nil => rfl
  | cons c rest =>
    simp only [patQNum, reDrop, qNumDirect]
    by_cases h : c.toLower = 'q'
    · cases rest with
      | nil => simp [reDrop, h]
      | cons d ds =>
        simp only [reDrop]
        by_cases hdig : d.isDigit
        · cases hd : (ds.dropWhile Char.isDigit).dropWhile pyIsSpace with
          | nil => simp [reDrop, hd, h, hdig]
          | cons c2 r2 =>
            by_cases h2 : c2 = '.' <;> by_cases h3 : c2 = ':' <;>
              simp [reDrop, hd, h, hdig, h2, h3, List.contains]
        · simp [reDrop, h, hdig]
    · simp [reDrop, h]

theorem reDrop_patEnum (l : List Char) :
    (reDrop patEnum l).isSome = enumDirect l := by
  cases l with
  | nil => rfl
  | cons d ds =>
    simp only [patEnum, reDrop, enumDirect]
    by_cases hdig : d.isDigit
    · cases hd : (ds.dropWhile Char.isDigit).dropWhile pyIsSpace with
      | nil => simp [reDrop, hd, hdig]
      | cons c2 r2 => by_cases h2 : c2 = '.' <;> simp [reDrop, hd, hdig, h2]
    · simp [reDrop, hdig]

theorem reDrop_patLeadQm (l : List Char) :
    (reDrop patLeadQm l).isSome = leadQmDirect l := by
  cases l with
  | nil => rfl
  | cons c rest =>
    simp only [patLeadQm, reDrop, leadQmDirect]
    by_cases h : c = '?' <;> simp [reDrop, h]

theorem reDrop_patAColon (l : List Char) :
    (reDrop patAColon l).isSome = aColonDirect l := by
  cases l with
  | nil => rfl
  | cons c rest =>
    simp only [patAColon, reDrop, aColonDirect]
    by_cases h : c.toLower = 'a'
    · cases hd : rest.dropWhile pyIsSpace with
      | nil => simp [reDrop, hd, h]
      | cons c2 r2 => by_cases h2 : c2 = ':' <;> simp [reDrop, hd, h, h2]
    · simp [reDrop, h]

theorem reDrop_patAnswerColon (l : List Char) :
    (reDrop patAnswerColon l).isSome = answerColonDirect l := by
  simp only [patAnswerColon, answerColonDirect, reDrop_wordCI]
  cases hd : dropWordCI ['a', 'n', 's', 'w', 'e', 'r'] l with
  | none => simp
  | some rest =>
    cases hd2 : rest.dropWhile pyIsSpace with
    | nil => simp [reDrop, hd2]
    | cons c2 r2 => by_cases h2 : c2 = ':' <;> simp [reDrop, hd2, h2]

theorem reDrop_patAnsColon (l : List Char) :
    (reDrop patAnsColon l).isSome = ansColonDirect l := by
  simp only [patAnsColon, ansColonDirect, reDrop_wordCI]
  cases hd : dropWordCI ['a', 'n', 's'] l with
  | none => simp
  | some rest =>
    cases hd2 : rest.dropWhile pyIsSpace with
    | nil => simp [reDrop, hd2]
    | cons c2 r2 => by_cases h2 : c2 = ':' <;> simp [reDrop, hd2, h2]

theorem reDrop_patANum (l : List Char) :
    (reDrop patANum l).isSome = aNumDirect l := by
  cases l with
  | nil => rfl
  | cons c rest =>
    simp only [patANum, reDrop, aNumDirect]
    by_cases h : c.toLower = 'a'
    · cases rest with
      | nil => simp [reDrop, h]
      | cons d ds =>
        simp only [reDrop]
        by_cases hdig : d.isDigit
        · cases hd : (ds.dropWhile Char.isDigit).dropWhile pyIsSpace with
          | nil => simp [reDrop, hd, h, hdig]
          | cons c2 r2 =>
            by_cases h2 : c2 = '.' <;> by_cases h3 : c2 = ':' <;>
              simp [reDrop, hd, h, hdig, h2, h3, List.contains]
        · simp [reDrop, h, hdig]
    · simp [reDrop, h]

/-! ## Claim theorems -/

/-- C1 (code_bug evidence): on the very input family the claim is about
(`Q: x` directly followed by `A: y`), `_extract_flashcards` does not
return the pair `(x, y)` — it raises `re.error: unterminated character
set`, because `_clean_question_text`'s substitution pattern never
compiles. The second conjunct pins the root cause. -/
theorem extract_raises_on_qa_pair :
    extract_flashcards "Q: x\nA: y" = .error reUnterminatedMsg ∧
    setsTerminated clean_question_regex false = false := by decide

/-- C5 (code_bug evidence): on a question line immediately followed by
another question line, `_extract_flashcards` does not silently emit no
pair and advance — it raises `re.error` from `_clean_question_text` as
soon as it reaches the first question line. The second conjunct shows
the answer search itself (the part of the claim about `_find_answer`)
does yield an empty answer there, as the claim describes. -/
theorem extract_raises_on_adjacent_questions :
    extract_flashcards "Q: a\nQ: b" = .error reUnterminatedMsg ∧
    find_answer (splitNl "Q: a\nQ: b".data) 1 = "".data := by decide

/-- C2 (counterexample): the claim's marker list includes bare `Q.` and
allows leading whitespace, but `_is_question_line` anchors every pattern
at position 0 and has no `Q.`-without-digits pattern: on `"Q. What is
X"` and on `" Q: x"` the claimed predicate is true while the code
returns false. -/
theorem is_question_line_claim_counterexample :
    (isQuestionLineClaim "Q. What is X".data = true ∧
      is_question_line "Q. What is X".data = false) ∧
    (isQuestionLineClaim " Q: x".data = true ∧
      is_question_line " Q: x".data = false) := by decide

/-- C2 (amended): `_is_question_line` is true exactly when the line
matches, anchored at its first character with no leading whitespace:
`Q` + optional whitespace + `:` (case-insensitive), `Question` +
optional whitespace + `:`, `Q<digits>` + optional whitespace + `:` or
`.`, `<digits>` + optional whitespace + `.`, a leading `?`, or — as an
unconditional fallback — the line after trimming trailing whitespace
ends with `?`. Bare `Q.` without digits is not a question marker. -/
theorem is_question_line_amended_spec (l : List Char) :
    is_question_line l = isQuestionLineAmended l := by
  simp [is_question_line, question_patterns, isQuestionLineAmended,
    List.any_cons, List.any_nil, reDrop_patQColon, reDrop_patQuestionColon,
    reDrop_patQNum, reDrop_patEnum, reDrop_patLeadQm, Bool.or_assoc]

/-- C3 (counterexample): the claim says bare `A.` is an answer marker,
but `_is_answer_line` only accepts `A` + `.` when digits intervene
(`A<digits>.`): on `"A. 42"` the claimed predicate is true while the
code returns false. -/
theorem is_answer_line_claim_counterexample :
    isAnswerLineClaim "A. 42".data = true ∧
    is_answer_line "A. 42".data = false := by decide

/-- C3 (amended): `_is_answer_line` is true exactly when the line
matches, anchored at its first character: `A` + optional whitespace +
`:` (case-insensitive), `Answer` + optional whitespace + `:`, `Ans` +
optional whitespace + `:`, or `A<digits>` + optional whitespace + `:`
or `.`; bare `A.` without digits is not an answer marker, and a line
that merely ends with `?` is never classified as an answer line. -/
theorem is_answer_line_amended_spec (l : List Char) :
    is_answer_line l = isAnswerLineAmended l := by
  simp [is_answer_line, answer_patterns, isAnswerLineAmended,
    List.any_cons, List.any_nil, reDrop_patAColon, reDrop_patAnswerColon,
    reDrop_patAnsColon, reDrop_patANum, Bool.or_assoc]

theorem getD_eq_headD_drop (l : List α) (j : Nat) (d : α) :
    l.getD j d = (l.drop j).headD d := by
  induction l generalizing j with
  | nil => cases j <;> simp [List.getD]
  | cons x xs ih =>
    cases j with
    | zero => rfl
    | succ n => simp [List.getD]

theorem drop_succ_eq_tail (l : List α) (j : Nat) :
    l.drop (j + 1) = (l.drop j).tail := by
  induction l generalizing j with
  | nil => simp
  | cons x xs ih =>
    cases j with
    | zero => rfl
    | succ n => simp

/-- The inner loop of `_find_answer`, run over the range `range(j, j +
n)` clipped to the list length, collects exactly the longest stripped
run of lines that are non-empty and neither question nor answer
lines. -/
theorem collect_go_eq_takeWhile (lines : List (List Char)) :
    ∀ (n j : Nat), collect_go lines (min (j + n) lines.length - j) j =
      (((lines.drop j).take n).map pyStrip).takeWhile lookaheadAmendedPred := by
  intro n
  induction n with
  | zero =>
    intro j
    have h0 : min (j + 0) lines.length - j = 0 :=
      Nat.sub_eq_zero_of_le (by omega)
    rw [h0]
    simp [collect_go]
  | succ n ih =>
    intro j
    cases hd : lines.drop j with
    | nil =>
      have hlen : lines.length ≤ j := List.drop_eq_nil_iff.mp hd
      have h0 : min (j + (n + 1)) lines.length - j = 0 :=
        Nat.sub_eq_zero_of_le (by omega)
      rw [h0]
      simp [collect_go, hd]
    | cons x xs =>
      have hj : j < lines.length := by
        by_contra hc
        rw [List.drop_eq_nil_iff.mpr (by omega)] at hd
        cases hd
      have hfuel : min (j + (n + 1)) lines.length - j =
          (min ((j + 1) + n) lines.length - (j + 1)) + 1 := by omega
      have hgd : lines.getD j [] = x := by
        rw [getD_eq_headD_drop, hd]; rfl
      have hdrop : lines.drop (j + 1) = xs := by
        rw [drop_succ_eq_tail, hd]; rfl
      rw [hfuel]
      simp only [collect_go, hgd, List.take_succ_cons, List.map_cons]
      by_cases hp : (!(pyStrip x).isEmpty && !is_question_line (pyStrip x) &&
          !is_answer_line (pyStrip x)) = true
      · have hp' : lookaheadAmendedPred (pyStrip x) = true := hp
        rw [if_pos hp]
        have := ih (j + 1)
        rw [hdrop] at this
        simp [List.takeWhile_cons, hp', this]
      · have hp' : lookaheadAmendedPred (pyStrip x) = false := Bool.eq_false_iff.mpr hp
        rw [if_neg hp]
        simp [List.takeWhile_cons, hp']

/-- The secondary lookahead after an answer line at index `i` equals
the `takeWhile` of the amended predicate over the (stripped) window of
the next two lines. -/
theorem secondary_lookahead_eq_takeWhile (lines : List (List Char)) (i : Nat) :
    secondary_lookahead lines i =
      (lookaheadWindow lines i).takeWhile lookaheadAmendedPred := by
  have h := collect_go_eq_takeWhile lines 2 (i + 1)
  have harith : min (i + 3) lines.length - (i + 1) =
      min ((i + 1) + 2) lines.length - (i + 1) := by omega
  unfold secondary_lookahead lookaheadWindow
  rw [harith]
  exact h

/-- C4 (amended): during the answer search, when the scanned line at
index `i` is an answer-marker line (and not a question line), the
collected answer parts are: the marker line with its marker stripped
(when non-empty), followed by the up-to-2-line secondary-lookahead
window truncated at the first line that is *blank*, a question line, or
an answer line (or at end of input). A blank line terminates the
lookahead — this is the one change the counterexample forces on the
claim, which said only question/answer lines stop it. -/
theorem find_answer_secondary_lookahead (lines : List (List Char)) (fuel i : Nat)
    (hq : is_question_line (pyStrip (lines.getD i [])) = false)
    (ha : is_answer_line (pyStrip (lines.getD i [])) = true) :
    find_answer_go lines (fuel + 1) i =
      (if !(clean_answer_text (pyStrip (lines.getD i []))).isEmpty then
        [clean_answer_text (pyStrip (lines.getD i []))]
      else []) ++ (lookaheadWindow lines i).takeWhile lookaheadAmendedPred := by
  rw [← secondary_lookahead_eq_takeWhile]
  simp only [find_answer_go, hq, ha]
  simp

/-- Witness for `find_answer_secondary_lookahead` at a concrete input
(`_find_answer` called with 4 units of outer fuel on an answer line
followed by three prose lines). -/
theorem find_answer_secondary_lookahead_witness :
    find_answer_go ["A: a".data, "b".data, "x".data, "y".data] 4 0 =
      (if !(clean_answer_text (pyStrip (
          (["A: a".data, "b".data, "x".data, "y".data]).getD 0 []))).isEmpty then
        [clean_answer_text (pyStrip (
          (["A: a".data, "b".data, "x".data, "y".data]).getD 0 []))]
      else []) ++
        (lookaheadWindow ["A: a".data, "b".data, "x".data, "y".data] 0).takeWhile
          lookaheadAmendedPred :=
  find_answer_secondary_lookahead ["A: a".data, "b".data, "x".data, "y".data] 3 0
    (by decide) (by decide)

/-- C4 (counterexample): with lines `["A: a", "", "x"]` the answer
marker is found at index 0; the claim predicts that the blank line does
not terminate the secondary lookahead, so that `""` and `"x"` are both
appended (giving the joined answer `"a  x"`), but the code's lookahead
stops at the blank line and the answer is `"a"`. -/
theorem secondary_lookahead_claim_counterexample :
    is_question_line (pyStrip ((["A: a".data, "".data, "x".data]).getD 0 [])) = false ∧
    is_answer_line (pyStrip ((["A: a".data, "".data, "x".data]).getD 0 [])) = true ∧
    (lookaheadWindow ["A: a".data, "".data, "x".data] 0).takeWhile lookaheadClaimPred
      = ["".data, "x".data] ∧
    secondary_lookahead ["A: a".data, "".data, "x".data] 0 = [] ∧
    pyStrip (joinSp (["a".data] ++
      (lookaheadWindow ["A: a".data, "".data, "x".data] 0).takeWhile lookaheadClaimPred))
      = "a  x".data ∧
    find_answer ["A: a".data, "".data, "x".data] 0 = "a".data ∧
    ("a".data : List Char) ≠ "a  x".data := by decide

/-- C6: `rename_deck(old, new)` fails iff `old` is absent or `new` is
present (so `rename(n, n)` on an existing deck always fails, as a name
conflict); a failing call changes no state. On success the renamed deck
(its `name` and `updated_at` updated) is registered under `new`, the
entry under `old` is gone, every other deck is untouched, and every
flashcard changes exactly by rewriting a deck reference equal to `old`
to `new` — no other state changes. -/
theorem rename_deck_spec (st : Store) (oldName newName now : String) :
    ((rename_deck st oldName newName now).1 = false ↔
      (pyLookup oldName st.decks = none ∨ (pyLookup newName st.decks).isSome = true)) ∧
    ((rename_deck st oldName newName now).1 = false →
      (rename_deck st oldName newName now).2 = st) ∧
    (∀ d, pyLookup oldName st.decks = some d →
      pyLookup newName st.decks = none →
      pyLookup newName (rename_deck st oldName newName now).2.decks =
        some { d with name := newName, updated_at := now } ∧
      pyLookup oldName (rename_deck st oldName newName now).2.decks = none ∧
      (∀ k, k ≠ oldName → k ≠ newName →
        pyLookup k (rename_deck st oldName newName now).2.decks = pyLookup k st.decks) ∧
      (∀ k, pyLookup k (rename_deck st oldName newName now).2.flashcards =
        (pyLookup k st.flashcards).map
          (fun fc => if fc.deck = oldName then { fc with deck := newName } else fc))) := by
  cases hold : pyLookup oldName st.decks with
  | none =>
    refine ⟨by simp [rename_deck, hold], fun _ => by simp [rename_deck, hold], ?_⟩
    intro d hd
    exact Option.noConfusion hd
  | some d0 =>
    cases hnew : pyLookup newName st.decks with
    | some d1 =>
      refine ⟨by simp [rename_deck, hold, hnew], fun _ => by simp [rename_deck, hold, hnew], ?_⟩
      intro d hd h2
      exact Option.noConfusion h2
    | none =>
      have hne : oldName ≠ newName := by
        intro e
        rw [e, hnew] at hold
        cases hold
      have hst : (rename_deck st oldName newName now).2 =
          { decks := pyDelete oldName st.decks ++
              [(newName, { d0 with name := newName, updated_at := now })],
            flashcards := st.flashcards.map (fun kv =>
              (kv.1, if kv.2.deck = oldName then { kv.2 with deck := newName } else kv.2)) } := by
        simp [rename_deck, hold, hnew]
      refine ⟨by simp [rename_deck, hold, hnew], ?_, ?_⟩
      · intro hfalse
        simp [rename_deck, hold, hnew] at hfalse
      · intro d hd _
        injection hd with hd
        subst hd
        refine ⟨?_, ?_, ?_, ?_⟩
        · rw [hst]
          simp only [pyLookup_append]
          rw [pyLookup_delete_ne newName oldName (fun e => hne e.symm), hnew]
          simp [pyLookup]
        · rw [hst]
          simp only [pyLookup_append]
          rw [pyLookup_delete_self]
          simp [pyLookup, Ne.symm hne]
        · intro k hko hkn
          rw [hst]
          simp only [pyLookup_append]
          rw [pyLookup_delete_ne k oldName hko]
          have hkn' : ¬ newName = k := fun e => hkn e.symm
          simp [pyLookup, hkn']
        · intro k
          rw [hst]
          exact pyLookup_mapVal k
            (fun fc => if fc.deck = oldName then { fc with deck := newName } else fc)
            st.flashcards

/-- Witness for `rename_deck_spec`: renaming `"Biology"` to `"Bio2"` in
the concrete store moves the deck and rewrites the flashcard in it. -/
theorem rename_deck_spec_witness :
    pyLookup "Bio2" (rename_deck stExample "Biology" "Bio2" "t1").2.decks =
      some { deckBio with name := "Bio2", updated_at := "t1" } ∧
    pyLookup "Biology" (rename_deck stExample "Biology" "Bio2" "t1").2.decks = none ∧
    pyLookup "f1" (rename_deck stExample "Biology" "Bio2" "t1").2.flashcards =
      some { fcBio with deck := "Bio2" } := by
  obtain ⟨h1, h2, -, h4⟩ :=
    (rename_deck_spec stExample "Biology" "Bio2" "t1").2.2 deckBio (by decide) (by decide)
  refine ⟨h1, h2, ?_⟩
  rw [h4 "f1"]
  decide

/-- C7: `delete_deck(name)` fails iff `name = "Default"` or `name` is
absent; a failing call changes no state. On success the deck is
removed, other decks are untouched, no flashcard is created or
destroyed (the flashcard map keeps its length and keys), every
flashcard changes exactly by rewriting a deck reference equal to `name`
to `"Default"`, and every flashcard formerly in `name` shows up in a
subsequent `search(deck="Default")`. -/
theorem delete_deck_spec (st : Store) (name : String) :
    ((delete_deck st name).1 = false ↔
      (name = "Default" ∨ pyLookup name st.decks = none)) ∧
    ((delete_deck st name).1 = false → (delete_deck st name).2 = st) ∧
    ((delete_deck st name).1 = true →
      pyLookup name (delete_deck st name).2.decks = none ∧
      (∀ k, k ≠ name → pyLookup k (delete_deck st name).2.decks = pyLookup k st.decks) ∧
      (delete_deck st name).2.flashcards.length = st.flashcards.length ∧
      (∀ k, pyLookup k (delete_deck st name).2.flashcards =
        (pyLookup k st.flashcards).map
          (fun fc => if fc.deck = name then { fc with deck := "Default" } else fc)) ∧
      (∀ k fc, pyLookup k st.flashcards = some fc → fc.deck = name →
        ({ fc with deck := "Default" }) ∈
          search_flashcards (delete_deck st name).2 none (some "Default") none none)) := by
  by_cases hdef : name = "Default"
  · refine ⟨by simp [delete_deck, hdef], fun _ => by simp [delete_deck, hdef], ?_⟩
    intro htrue
    simp [delete_deck, hdef] at htrue
  · cases hl : pyLookup name st.decks with
    | none =>
      refine ⟨by simp [delete_deck, hdef, hl], fun _ => by simp [delete_deck, hdef, hl], ?_⟩
      intro htrue
      simp [delete_deck, hdef, hl] at htrue
    | some d0 =>
      have hst : (delete_deck st name).2 =
          { decks := pyDelete name st.decks,
            flashcards := st.flashcards.map (fun kv =>
              (kv.1, if kv.2.deck = name then { kv.2 with deck := "Default" } else kv.2)) } := by
        simp [delete_deck, hdef, hl]
      refine ⟨by simp [delete_deck, hdef, hl], ?_, ?_⟩
      · intro hfalse
        simp [delete_deck, hdef, hl] at hfalse
      · intro _
        refine ⟨?_, ?_, ?_, ?_, ?_⟩
        · rw [hst]; exact pyLookup_delete_self name st.decks
        · intro k hk; rw [hst]; exact pyLookup_delete_ne k name hk st.decks
        · rw [hst]; simp
        · intro k
          rw [hst]
          exact pyLookup_mapVal k
            (fun fc => if fc.deck = name then { fc with deck := "Default" } else fc)
            st.flashcards
        · intro k fc hk hdeck
          have hmem : (k, fc) ∈ st.flashcards := pyLookup_mem hk
          have hmem2 : (k, { fc with deck := "Default" }) ∈
              (delete_deck st name).2.flashcards := by
            rw [hst]
            have := List.mem_map_of_mem (fun kv : String × Flashcard =>
              (kv.1, if kv.2.deck = name then { kv.2 with deck := "Default" } else kv.2)) hmem
            simpa [hdeck] using this
          have hmem3 : ({ fc with deck := "Default" } : Flashcard) ∈
              (delete_deck st name).2.flashcards.map (fun kv => kv.2) :=
            List.mem_map_of_mem (fun kv => kv.2) hmem2
          have ht1 : optTruthy (none : Option String) = false := rfl
          have ht2 : optTruthy (some "Default") = true := by decide
          have hsearch : search_flashcards (delete_deck st name).2 none (some "Default")
              none none =
              ((delete_deck st name).2.flashcards.map (fun kv => kv.2)).filter
                (fun fc => fc.deck = "Default") := by
            simp [search_flashcards, ht1, ht2]
          rw [hsearch]
          exact List.mem_filter.mpr ⟨hmem3, by simp⟩

/-- Witness for `delete_deck_spec`: deleting `"Biology"` from the
concrete store removes the deck and the flashcard formerly in it is
found by `search(deck="Default")`. -/
theorem delete_deck_spec_witness :
    pyLookup "Biology" (delete_deck stExample "Biology").2.decks = none ∧
    ({ fcBio with deck := "Default" }) ∈
      search_flashcards (delete_deck stExample "Biology").2 none (some "Default")
        none none := by
  have h := (delete_deck_spec stExample "Biology").2.2 (by decide)
  exact ⟨h.1, h.2.2.2.2 "f1" fcBio (by decide) (by decide)⟩

/-- C8: deck creation through the API requires a name that is non-empty
after trimming (else a validation failure), fails exactly when a deck
with that exact (case-sensitive) trimmed name already exists, and
otherwise registers and returns a newly created deck with that name,
touching nothing else. -/
theorem api_create_deck_spec (st : Store) (raw freshId now : String) :
    (pyStripStr raw = "" →
      api_create_deck st raw freshId now = .error "Deck name required.") ∧
    (pyStripStr raw ≠ "" → (pyLookup (pyStripStr raw) st.decks).isSome = true →
      api_create_deck st raw freshId now = .error "Deck already exists.") ∧
    (pyStripStr raw ≠ "" → pyLookup (pyStripStr raw) st.decks = none →
      ∃ d st', api_create_deck st raw freshId now = .ok (d, st') ∧
        d.name = pyStripStr raw ∧
        pyLookup (pyStripStr raw) st'.decks = some d ∧
        (∀ k, k ≠ pyStripStr raw → pyLookup k st'.decks = pyLookup k st.decks) ∧
        st'.flashcards = st.flashcards) := by
  by_cases hn : pyStripStr raw = ""
  · refine ⟨fun _ => by simp [api_create_deck, hn], ?_, ?_⟩
    · intro hne _; exact absurd hn hne
    · intro hne _; exact absurd hn hne
  · refine ⟨fun h => absurd h hn, ?_, ?_⟩
    · intro _ hex
      rw [Option.isSome_iff_exists] at hex
      obtain ⟨d1, hd1⟩ := hex
      simp [api_create_deck, create_deck, hn, hd1]
    · intro _ hnone
      refine ⟨{ id := freshId, name := pyStripStr raw, created_at := now, updated_at := now },
        { st with decks := st.decks ++
            [(pyStripStr raw,
              { id := freshId, name := pyStripStr raw, created_at := now, updated_at := now })] },
        ?_, rfl, ?_, ?_, rfl⟩
      · simp [api_create_deck, create_deck, hn, hnone]
      · simp only [pyLookup_append, hnone]
        simp [pyLookup]
      · intro k hk
        simp only [pyLookup_append]
        have hk' : ¬ pyStripStr raw = k := fun e => hk e.symm
        simp [pyLookup, hk']

/-- Witness for `api_create_deck_spec`: creating `" Chemistry "`
(trimming to a fresh name) in the concrete store succeeds. -/
theorem api_create_deck_spec_witness :
    (api_create_deck stExample " Chemistry " "d-9" "t2").isOk = true := by
  obtain ⟨d, st', happ, -, -, -, -⟩ :=
    (api_create_deck_spec stExample " Chemistry " "d-9" "t2").2.2 (by decide) (by decide)
  rw [happ]
  rfl

/-- C9 (counterexample): the claim quantifies over every present
flashcard id and every tag, but when the flashcard already carries the
tag the *first* call fails (and changes nothing) instead of
succeeding: flashcard `"f2"` of the concrete store already has tag
`"x"`. -/
theorem tag_twice_claim_counterexample :
    (pyLookup "f2" stExample.flashcards).isSome = true ∧
    (tag_flashcard stExample "f2" "x" "t1").1 = false ∧
    (tag_flashcard stExample "f2" "x" "t1").2 = stExample := by decide

/-- C9 (amended): for every flashcard id present in the store and every
tag the flashcard does *not yet carry*, calling `tag` twice has the
first call succeed and the second call fail, the failing call changes
no state, and the flashcard ends up with exactly one copy of the
tag. -/
theorem tag_twice_spec (st : Store) (fid tg now now' : String) (fc : Flashcard)
    (h1 : pyLookup fid st.flashcards = some fc)
    (h2 : fc.tags.contains tg = false) :
    (tag_flashcard st fid tg now).1 = true ∧
    (tag_flashcard (tag_flashcard st fid tg now).2 fid tg now').1 = false ∧
    (tag_flashcard (tag_flashcard st fid tg now).2 fid tg now').2 =
      (tag_flashcard st fid tg now).2 ∧
    (pyLookup fid (tag_flashcard st fid tg now).2.flashcards).map
      (fun f => f.tags.count tg) = some 1 := by
  have hnotmem : tg ∉ fc.tags := by simpa using h2
  have hfst : (tag_flashcard st fid tg now).1 = true := by
    simp [tag_flashcard, h1, hnotmem]
  have hupd : (tag_flashcard st fid tg now).2.flashcards =
      pyUpdateAt fid (fun f => { f with tags := f.tags ++ [tg], updated_at := now })
        st.flashcards := by
    simp [tag_flashcard, h1, hnotmem]
  have hlook : pyLookup fid (tag_flashcard st fid tg now).2.flashcards =
      some { fc with tags := fc.tags ++ [tg], updated_at := now } := by
    rw [hupd, pyLookup_updateAt_self, h1]
    rfl
  have hsecond : ∀ st1 : Store, pyLookup fid st1.flashcards =
      some { fc with tags := fc.tags ++ [tg], updated_at := now } →
      tag_flashcard st1 fid tg now' = (false, st1) := by
    intro st1 hl
    simp [tag_flashcard, hl]
  refine ⟨hfst, ?_, ?_, ?_⟩
  · rw [hsecond _ hlook]
  · rw [hsecond _ hlook]
  · rw [hlook]
    simp [List.count_append, List.count_eq_zero.mpr hnotmem]

/-- Witness for `tag_twice_spec`: tagging flashcard `"f1"` with the
fresh tag `"y"` twice in the concrete store. -/
theorem tag_twice_spec_witness :
    (tag_flashcard stExample "f1" "y" "t1").1 = true ∧
    (tag_flashcard (tag_flashcard stExample "f1" "y" "t1").2 "f1" "y" "t2").1 = false ∧
    (tag_flashcard (tag_flashcard stExample "f1" "y" "t1").2 "f1" "y" "t2").2 =
      (tag_flashcard stExample "f1" "y" "t1").2 ∧
    (pyLookup "f1" (tag_flashcard stExample "f1" "y" "t1").2.flashcards).map
      (fun f => f.tags.count "y") = some 1 :=
  tag_twice_spec stExample "f1" "y" "t1" "t2" fcBio (by decide) (by decide)

theorem filter_stage (o : Option String) (p : String → Flashcard → Bool)
    (l : List Flashcard) :
    (if optTruthy o then l.filter (fun fc => p (o.getD "") fc) else l) =
      l.filter (fun fc => filterOk o (fun s => p s fc)) := by
  cases o with
  | none => simp [optTruthy, filterOk]
  | some s => by_cases hs : s = "" <;> simp [optTruthy, filterOk, hs]

/-- C10: `search_flashcards` returns exactly the flashcards satisfying
the conjunction of the supplied predicates — case-insensitive substring
of question or answer for `query`, exact deck-name equality for `deck`,
tag-set membership for `tag`, exact equality against the current
assessment for `assessment` — with omitted or empty filters imposing no
constraint, all matches returned, and no pagination. -/
theorem search_flashcards_spec (st : Store) (query deck tag assessment : Option String) :
    search_flashcards st query deck tag assessment =
      (st.flashcards.map (fun kv => kv.2)).filter
        (matchesClaim query deck tag assessment) := by
  unfold search_flashcards
  rw [filter_stage assessment (fun s fc => fc.assessmentCurrent = some s),
    filter_stage tag (fun s fc => fc.tags.contains s),
    filter_stage deck (fun s fc => fc.deck = s),
    filter_stage query (fun s fc => containsCI fc.question s || containsCI fc.answer s)]
  simp only [List.filter_filter]
  apply List.filter_congr
  intro fc _
  simp [matchesClaim, Bool.and_comm, Bool.and_assoc, Bool.and_left_comm]

end NotesToNotion
